import Mathlib

/-!
Verification of the PDB automation harness `simplest_pal.py` (Simplest P.A.L.).

The development shallowly embeds the parts of the program that the spec's
testable properties talk about:

* the text primitives used by `PdbAutomation.readline` (substring containment,
  `splitlines`, `strip`, `startswith`), modelled over `List Char`;
* the output-classification logic of `PdbAutomation.readline` (lines 81-147),
  as a pure function of the drained buffer text, the `quit_on_stop` flag and
  the line read from the original stdin;
* the output buffer drain `PdbAutomation.get_output` (lines 167-174);
* the log append with fallback `PdbAutomation._log_to_file` (lines 47-56);
* the debugger enter/exit hooks and the `set_trace_with_hooks` wrapper
  (lines 149-165 and 204-215), with the hook calls made explicit as an event
  trace and a raised exception modelled as `Except.error`;
* one attempt of the retry loop of `simplest_pal_main` (lines 230-260) and the
  loop itself, driven by an oracle schedule of per-attempt run results.
-/

namespace SimplestPal

/-! ## Text primitives

Python's `needle in hay`, `str.splitlines`, `str.strip` and
`str.startswith`, modelled over `List Char` so that they evaluate by kernel
reduction.  `pySplitLines` recognises the full set of line boundaries of
Python's `str.splitlines` (with `"\r\n"` consumed as a single boundary and no
empty last line after a terminal boundary), and `isPySpace` is the full
character set of Python's `str.isspace`, which is what `str.strip()` with no
argument removes. -/

/-- Python `str.startswith`: `listPrefixOf p l` is true when `p` is a prefix
of `l`. -/
def listPrefixOf : List Char → List Char → Bool
  | [], _ => true
  | _ :: _, [] => false
  | a :: as, b :: bs => a == b && listPrefixOf as bs

/-- Python `needle in hay` over char lists: true when `needle` occurs as a
contiguous sublist of the second argument. -/
def listInfixOf (needle : List Char) : List Char → Bool
  | [] => needle.isEmpty
  | c :: rest => listPrefixOf needle (c :: rest) || listInfixOf needle rest

/-- Python `needle in hay` on strings. -/
def strContains (hay needle : String) : Bool :=
  listInfixOf needle.data hay.data

/-- The line boundaries recognised by Python's `str.splitlines`:
`'\n'` (0x0A), `'\v'` (0x0B), `'\f'` (0x0C), `'\r'` (0x0D), the separators
0x1C-0x1E, NEL (0x85), LINE SEPARATOR (U+2028) and PARAGRAPH SEPARATOR
(U+2029). -/
def isLineBoundary (c : Char) : Bool :=
  let n := c.toNat
  decide ((10 ≤ n ∧ n ≤ 13) ∨ (28 ≤ n ∧ n ≤ 30) ∨ n = 133 ∨
    n = 0x2028 ∨ n = 0x2029)

/-- Python `str.splitlines`: split at every line boundary, with `"\r\n"`
consumed as a single boundary; a boundary at the end of the text produces no
empty last line, and the empty text has no lines. -/
def pySplitLines : List Char → List (List Char)
  | [] => []
  | '\r' :: '\n' :: rest => [] :: pySplitLines rest
  | c :: rest =>
    if isLineBoundary c then [] :: pySplitLines rest
    else
      match pySplitLines rest with
      | [] => [[c]]
      | l :: ls => (c :: l) :: ls

/-- The characters on which Python's `str.isspace` is true — exactly what
`str.strip()` with no argument removes: 0x09-0x0D, 0x1C-0x1F, the space
(0x20), NEL (0x85), NO-BREAK SPACE (0xA0), OGHAM SPACE MARK (0x1680), the
U+2000-U+200A spaces, U+2028, U+2029, NARROW NO-BREAK SPACE (U+202F), MEDIUM
MATHEMATICAL SPACE (U+205F) and IDEOGRAPHIC SPACE (U+3000). -/
def isPySpace (c : Char) : Bool :=
  let n := c.toNat
  decide ((9 ≤ n ∧ n ≤ 13) ∨ (28 ≤ n ∧ n ≤ 31) ∨ n = 32 ∨ n = 133 ∨
    n = 160 ∨ n = 0x1680 ∨ (0x2000 ≤ n ∧ n ≤ 0x200a) ∨ n = 0x2028 ∨
    n = 0x2029 ∨ n = 0x202f ∨ n = 0x205f ∨ n = 0x3000)

/-- Python `str.strip()`: drop leading and trailing whitespace. -/
def pyStrip (l : List Char) : List Char :=
  ((l.dropWhile isPySpace).reverse.dropWhile isPySpace).reverse

/-- True when the string's last character is `'\n'`. -/
def endsWithNewline (s : String) : Bool :=
  match s.data.getLast? with
  | some c => c == '\n'
  | none => false

/-! ## Marker detection (simplest_pal.py lines 95-98 and 114-122) -/

/-- Line 95: `"AI Interaction Point" in current_buffered_output`. -/
def ai_interaction_point_present (buf : String) : Bool :=
  strContains buf "AI Interaction Point"

/-- Line 96: `"Current Code Context (for AI reference)" in current_buffered_output`. -/
def current_code_context_present (buf : String) : Bool :=
  strContains buf "Current Code Context (for AI reference)"

/-- Line 97: `"Human Consultation Requested" in current_buffered_output`.
Computed by `readline` but read by none of its branches. -/
def human_consultation_present (buf : String) : Bool :=
  strContains buf "Human Consultation Requested"

/-- Line 98: `'(Pdb)' in current_buffered_output`. -/
def pdb_prompt_present (buf : String) : Bool :=
  strContains buf "(Pdb)"

/-- Lines 115-122: scan the buffered output line by line for a frame line,
one whose stripped form starts with `'>'` and which contains
`os.path.basename(__file__)`, i.e. the literal `"simplest_pal.py"`. -/
def is_in_simplest_pal_frame (buf : String) : Bool :=
  (pySplitLines buf.data).any fun line =>
    listPrefixOf ['>'] (pyStrip line) && listInfixOf "simplest_pal.py".data line

/-! ## The readline classifier (simplest_pal.py lines 81-147)

`readline` first drains the output buffer (modelled separately by
`get_output`) and echoes it to the console; the command it then returns is a
pure function of the drained text `current_buffered_output`, the
`quit_on_stop` flag, and — on the manual path — the line read from the
original stdin.  `stdin_line` is the result of the blocking
`self.original_stdin.readline()`: Python returns `""` there exactly at end of
stream, which is what the `if not user_command` test detects.  Logging and
console echo are side effects on sinks and do not influence the returned
command. -/

/-- The command `PdbAutomation.readline` returns for a given drained buffer
text, `quit_on_stop` setting, and manual-input line (`""` meaning EOF). -/
def readline (current_buffered_output : String) (quit_on_stop : Bool)
    (stdin_line : String) : String :=
  if ai_interaction_point_present current_buffered_output &&
      current_code_context_present current_buffered_output then "c\n"
  else if pdb_prompt_present current_buffered_output && quit_on_stop then "q\n"
  else if pdb_prompt_present current_buffered_output &&
      is_in_simplest_pal_frame current_buffered_output then "u\n"
  else if pdb_prompt_present current_buffered_output then
    if stdin_line.data.isEmpty then "q\n" else stdin_line
  else ""

/-! ## OutputBuffer (simplest_pal.py lines 37, 70, 86-89 and 167-174)

`self.output_buffer` is an `io.StringIO`; `write` appends to it, and both
`readline` (lines 87-89) and `get_output` (lines 171-173) drain it with
`getvalue()` followed by `truncate(0); seek(0)`. -/

/-- The `io.StringIO` accumulator `self.output_buffer`. -/
structure OutputBuffer where
  contents : String
deriving DecidableEq

/-- `PdbAutomation.write` restricted to the buffer: `self.output_buffer.write(s)`. -/
def OutputBuffer.write (b : OutputBuffer) (s : String) : OutputBuffer :=
  ⟨b.contents ++ s⟩

/-- `PdbAutomation.get_output` (lines 167-174), the same drain that `readline`
performs at lines 87-89: return the accumulated text and clear the buffer. -/
def get_output (b : OutputBuffer) : String × OutputBuffer :=
  (b.contents, ⟨""⟩)

/-! ## Log sink with fallback (simplest_pal.py lines 47-56)

`_log_to_file` appends to the log file inside `try:`, and on any exception
writes a warning to the original stdout instead.  The underlying
`open(...,'a').write` is modelled by `append_to_log`, parameterised by
whether it raises; the state records the log file's lines and the original
console's lines. -/

/-- The log file's contents and the original console's contents, as lists of
written strings. -/
structure LogState where
  log_lines : List String
  console_lines : List String
deriving DecidableEq

/-- `open(self.log_file, 'a').write(s)` — may raise; when it does, the log is
unchanged and the error message is carried in the exception. -/
def append_to_log (raises : Bool) (log : List String) (s : String) :
    Except String (List String) :=
  if raises then Except.error "io error" else Except.ok (log ++ [s])

/-- `PdbAutomation._log_to_file` (lines 47-56): try the append; on an
exception `e`, fall back to writing
`f"PDB Automation: Error writing to log file: {e}\n"` on the original
stdout.  Total: no exception escapes. -/
def log_to_file (append_raises : Bool) (st : LogState) (s : String) : LogState :=
  match append_to_log append_raises st.log_lines s with
  | Except.ok newLog => { st with log_lines := newLog }
  | Except.error e =>
      { st with console_lines :=
          st.console_lines ++ ["PDB Automation: Error writing to log file: " ++ e ++ "\n"] }

/-! ## Session hooks and the set_trace wrapper (lines 149-165, 204-215, 262-265)

`is_debugging` is the `threading.Event` flag: `true` is the spec's Active,
`false` its Idle.  `set_trace_with_hooks` runs the enter hook, calls
`pal_debugger.set_trace(frame)`, and then runs the exit hook — with no
`try/finally` around the call.  The call either returns normally or raises
(`bdb.BdbQuit` on an explicit quit, or any other fault); a raise is modelled
as `Except.error`, carrying the same payload shape as the normal result: the
list of hook calls actually executed, in order, and the `is_debugging` flag
at the moment control leaves the wrapper. -/

/-- A call to one of the two session hooks. -/
inductive HookEvent where
  | enterHook
  | exitHook
deriving DecidableEq

/-- `PdbAutomation.enter_debugger_hook` (lines 149-156): `self.is_debugging.set()`. -/
def enter_debugger_hook (_is_debugging : Bool) : Bool := true

/-- `PdbAutomation.exit_debugger_hook` (lines 158-165): `self.is_debugging.clear()`. -/
def exit_debugger_hook (_is_debugging : Bool) : Bool := false

/-- `set_trace_with_hooks` (lines 204-215).  `set_trace_raises` says whether
the `pal_debugger.set_trace(frame)` call raises.  The result carries the hook
calls executed and the final `is_debugging` flag; `Except.error` means the
exception propagated out of the wrapper. -/
def set_trace_with_hooks (set_trace_raises : Bool) (is_debugging : Bool) :
    Except (List HookEvent × Bool) (List HookEvent × Bool) :=
  let d1 := enter_debugger_hook is_debugging
  if set_trace_raises then
    Except.error ([HookEvent.enterHook], d1)
  else
    Except.ok ([HookEvent.enterHook, HookEvent.exitHook], exit_debugger_hook d1)

/-- The hook part of the `finally:` teardown of `simplest_pal_main`
(lines 262-265): if `is_debugging` is still set, call the exit hook.
Returns the hook calls executed and the final flag. -/
def finally_exit_hook (is_debugging : Bool) : List HookEvent × Bool :=
  if is_debugging then ([HookEvent.exitHook], exit_debugger_hook is_debugging)
  else ([], is_debugging)

/-! ## The execution-retry driver (simplest_pal.py lines 228-260)

One attempt of the `while not script_completed` loop runs
`runpy.run_path(...)`; the run either completes, raises `bdb.BdbQuit`, or
raises some other exception.  Because the run may enter and leave debugger
sessions, the `is_debugging` flag observed when the run ends is an input of
the attempt (`debugging_after_run`).  The loop is driven by an oracle
schedule giving each attempt's result and post-run flag; it stops when
`script_completed` holds or the schedule is exhausted. -/

/-- Outcome of one `runpy.run_path` call (lines 234-245). -/
inductive RunResult where
  | completes
  | raisesBdbQuit
  | raisesOther
deriving DecidableEq

/-- The driver's mutable state: `script_completed`, `script_force_quit`
(lines 228-229) and the `is_debugging` flag. -/
structure DriverState where
  script_completed : Bool
  script_force_quit : Bool
  is_debugging : Bool
deriving DecidableEq

/-- One iteration of the driver loop body (lines 233-258): dispatch on the
run's outcome, then re-open the loop when the debugger is still active and no
explicit quit was seen (line 257). -/
def attempt (st : DriverState) (result : RunResult) (debugging_after_run : Bool) :
    DriverState :=
  let st1 : DriverState := { st with is_debugging := debugging_after_run }
  let st2 : DriverState :=
    match result with
    | RunResult.completes => { st1 with script_completed := true }
    | RunResult.raisesBdbQuit =>
        { st1 with script_completed := true, script_force_quit := true }
    | RunResult.raisesOther =>
        if !st1.is_debugging then { st1 with script_completed := true } else st1
  if st2.is_debugging && !st2.script_force_quit then
    { st2 with script_completed := false }
  else st2

/-- The `while not script_completed` loop (line 232), driven by an oracle
schedule of per-attempt outcomes. -/
def driver_loop (schedule : List (RunResult × Bool)) (st : DriverState) : DriverState :=
  match schedule with
  | [] => st
  | (r, d) :: rest =>
      if st.script_completed then st
      else driver_loop rest (attempt st r d)

/-! ## Claim theorems -/

/-- C1: for every drained buffer text containing both the literal substrings
"AI Interaction Point" and "Current Code Context (for AI reference)",
`readline` returns the continue command `"c\n"`, regardless of which other
markers are present, of the `quit_on_stop` setting, and of the manual-input
line. -/
theorem readline_ai_context_continue (buf : String) (quit_on_stop : Bool)
    (stdin_line : String)
    (hai : ai_interaction_point_present buf = true)
    (hctx : current_code_context_present buf = true) :
    readline buf quit_on_stop stdin_line = "c\n" := by
  simp [readline, hai, hctx]

/-- C1 witness: a buffer carrying every marker at once, with
`quit_on_stop = true`, still yields `"c\n"`. -/
theorem readline_ai_context_continue_witness :
    ai_interaction_point_present "AI Interaction Point\nCurrent Code Context (for AI reference)\nHuman Consultation Requested\n> /app/simplest_pal.py(214)f()\n(Pdb) " = true ∧
    current_code_context_present "AI Interaction Point\nCurrent Code Context (for AI reference)\nHuman Consultation Requested\n> /app/simplest_pal.py(214)f()\n(Pdb) " = true ∧
    readline "AI Interaction Point\nCurrent Code Context (for AI reference)\nHuman Consultation Requested\n> /app/simplest_pal.py(214)f()\n(Pdb) " true "" = "c\n" :=
  ⟨by decide, by decide,
    readline_ai_context_continue _ true "" (by decide) (by decide)⟩

/-- C5: for every drained buffer text containing the prompt marker `(Pdb)` and
not containing both AI markers together, `readline` with
`quit_on_stop = true` returns the quit command `"q\n"`. -/
theorem readline_quit_on_stop_quits (buf stdin_line : String)
    (hp : pdb_prompt_present buf = true)
    (hnot : ¬ (ai_interaction_point_present buf = true ∧
        current_code_context_present buf = true)) :
    readline buf true stdin_line = "q\n" := by
  have hfalse : (ai_interaction_point_present buf &&
      current_code_context_present buf) = false := by
    cases hA : ai_interaction_point_present buf <;>
      cases hC : current_code_context_present buf <;> simp_all
  simp [readline, hfalse, hp]

/-- C5 witness: buffer `"(Pdb) "` with `quit_on_stop = true` yields `"q\n"`. -/
theorem readline_quit_on_stop_quits_witness :
    pdb_prompt_present "(Pdb) " = true ∧
    ¬ (ai_interaction_point_present "(Pdb) " = true ∧
        current_code_context_present "(Pdb) " = true) ∧
    readline "(Pdb) " true "next\n" = "q\n" :=
  ⟨by decide, by decide,
    readline_quit_on_stop_quits "(Pdb) " "next\n" (by decide) (by decide)⟩

/-- C6: for every drained buffer text containing the prompt marker, not
matching rules 1-2 (not both AI markers together, and `quit_on_stop = false`),
and containing a frame line whose stripped form starts with `>` and which
contains `simplest_pal.py`, `readline` returns the step-up command `"u\n"`. -/
theorem readline_self_frame_steps_up (buf stdin_line : String)
    (hp : pdb_prompt_present buf = true)
    (hnot : ¬ (ai_interaction_point_present buf = true ∧
        current_code_context_present buf = true))
    (hframe : is_in_simplest_pal_frame buf = true) :
    readline buf false stdin_line = "u\n" := by
  have hfalse : (ai_interaction_point_present buf &&
      current_code_context_present buf) = false := by
    cases hA : ai_interaction_point_present buf <;>
      cases hC : current_code_context_present buf <;> simp_all
  simp [readline, hfalse, hp, hframe]

/-- C6 witness: a prompt plus a harness frame line yields `"u\n"` when
`quit_on_stop = false`. -/
theorem readline_self_frame_steps_up_witness :
    pdb_prompt_present "> /app/simplest_pal.py(215)f()\n(Pdb) " = true ∧
    ¬ (ai_interaction_point_present "> /app/simplest_pal.py(215)f()\n(Pdb) " = true ∧
        current_code_context_present "> /app/simplest_pal.py(215)f()\n(Pdb) " = true) ∧
    is_in_simplest_pal_frame "> /app/simplest_pal.py(215)f()\n(Pdb) " = true ∧
    readline "> /app/simplest_pal.py(215)f()\n(Pdb) " false "next\n" = "u\n" :=
  ⟨by decide, by decide, by decide,
    readline_self_frame_steps_up "> /app/simplest_pal.py(215)f()\n(Pdb) " "next\n"
      (by decide) (by decide) (by decide)⟩

/-- C7 counterexample: when the prompt marker is absent, `readline` returns
the empty string, which is not newline-terminated — refuting the claim that
every returned string is newline-terminated. -/
theorem readline_newline_counterexample :
    readline "" false "" = "" ∧
    endsWithNewline (readline "" false "") = false := by
  exact ⟨rfl, rfl⟩

/-- C7 amended: every string `readline` returns is newline-terminated except
on two paths: when the prompt marker is absent it returns the empty string,
and on the manual path it returns the stdin line verbatim (newline-terminated
exactly when that line is). -/
theorem readline_newline_terminated_amended (buf : String) (quit_on_stop : Bool)
    (stdin_line : String) :
    endsWithNewline (readline buf quit_on_stop stdin_line) = true ∨
    readline buf quit_on_stop stdin_line = stdin_line ∨
    (pdb_prompt_present buf = false ∧ readline buf quit_on_stop stdin_line = "") := by
  unfold readline
  split
  · exact Or.inl rfl
  · split
    · exact Or.inl rfl
    · split
      · exact Or.inl rfl
      · split
        · split
          · exact Or.inl rfl
          · exact Or.inr (Or.inl rfl)
        · rename_i h
          exact Or.inr (Or.inr ⟨by simpa using h, rfl⟩)

/-- C10: the command `readline` returns never depends on the
"Human Consultation Requested" marker: any two buffer texts agreeing on the
AI-interaction marker, the code-context marker, the prompt marker and the
self-frame detection produce the same command, for the same `quit_on_stop`
and manual input. -/
theorem readline_ignores_human_consultation (b1 b2 : String) (quit_on_stop : Bool)
    (stdin_line : String)
    (hai : ai_interaction_point_present b1 = ai_interaction_point_present b2)
    (hctx : current_code_context_present b1 = current_code_context_present b2)
    (hp : pdb_prompt_present b1 = pdb_prompt_present b2)
    (hframe : is_in_simplest_pal_frame b1 = is_in_simplest_pal_frame b2) :
    readline b1 quit_on_stop stdin_line = readline b2 quit_on_stop stdin_line := by
  unfold readline
  rw [hai, hctx, hp, hframe]

/-- C10 witness: two buffers differing exactly in the human-consultation
marker get the same command. -/
theorem readline_ignores_human_consultation_witness :
    human_consultation_present "(Pdb) " = false ∧
    human_consultation_present "(Pdb) Human Consultation Requested" = true ∧
    readline "(Pdb) " false "next\n" =
      readline "(Pdb) Human Consultation Requested" false "next\n" :=
  ⟨by decide, by decide,
    readline_ignores_human_consultation "(Pdb) " "(Pdb) Human Consultation Requested"
      false "next\n" (by decide) (by decide) (by decide) (by decide)⟩

/-- C8: draining a non-empty buffer returns non-empty text, and an
immediately repeated drain with no intervening write returns the empty
string. -/
theorem get_output_drain_idempotent (b : OutputBuffer) (h : b.contents ≠ "") :
    (get_output b).1 ≠ "" ∧ (get_output (get_output b).2).1 = "" :=
  ⟨h, rfl⟩

/-- C8 witness: drain twice on the buffer holding `"(Pdb) "`. -/
theorem get_output_drain_idempotent_witness :
    (⟨"(Pdb) "⟩ : OutputBuffer).contents ≠ "" ∧
    (get_output (⟨"(Pdb) "⟩ : OutputBuffer)).1 ≠ "" ∧
    (get_output (get_output (⟨"(Pdb) "⟩ : OutputBuffer)).2).1 = "" :=
  ⟨by decide,
    (get_output_drain_idempotent ⟨"(Pdb) "⟩ (by decide)).1,
    (get_output_drain_idempotent ⟨"(Pdb) "⟩ (by decide)).2⟩

/-- C9: `_log_to_file` never lets an append failure escape: when the
underlying append raises, it writes the warning line to the original console
and leaves the log unchanged, returning normally; when the append succeeds,
the string is appended to the log. -/
theorem log_to_file_fault_fallback (st : LogState) (s : String) :
    log_to_file true st s =
      { st with console_lines :=
          st.console_lines ++ ["PDB Automation: Error writing to log file: io error\n"] } ∧
    log_to_file false st s = { st with log_lines := st.log_lines ++ [s] } :=
  ⟨rfl, rfl⟩

/-- C2 counterexample: with the `set_trace` call raising and the session
starting Idle, the wrapper propagates the exception having run only the enter
hook, with `is_debugging` still set — the exit hook did not run on this exit
path. -/
theorem set_trace_with_hooks_skips_exit_counterexample :
    set_trace_with_hooks true false = Except.error ([HookEvent.enterHook], true) ∧
    HookEvent.exitHook ∉ [HookEvent.enterHook] :=
  ⟨rfl, by decide⟩

/-- C2 amended: the wrapper runs the exit hook after the enter hook only when
the `set_trace` call returns normally; when that call raises, the exception
propagates with the exit hook not yet run and the session still Active.  The
session nevertheless ends Idle because the final teardown of the driver
invokes the exit hook whenever the flag is still set. -/
theorem set_trace_with_hooks_amended (is_debugging : Bool) :
    set_trace_with_hooks false is_debugging =
      Except.ok ([HookEvent.enterHook, HookEvent.exitHook], false) ∧
    set_trace_with_hooks true is_debugging =
      Except.error ([HookEvent.enterHook], true) ∧
    (finally_exit_hook true).1 = [HookEvent.exitHook] ∧
    (∀ d : Bool, (finally_exit_hook d).2 = false) := by
  refine ⟨rfl, rfl, rfl, ?_⟩
  intro d
  cases d <;> rfl

/-- C3: when an attempt raises a non-quit fault with `is_debugging` clear
(Idle) at the catch, `script_completed` becomes true and the loop performs no
further attempt under any schedule. -/
theorem crashed_unsupervised_terminates (st : DriverState)
    (schedule : List (RunResult × Bool)) :
    (attempt st RunResult.raisesOther false).script_completed = true ∧
    driver_loop schedule (attempt st RunResult.raisesOther false) =
      attempt st RunResult.raisesOther false := by
  have h : (attempt st RunResult.raisesOther false).script_completed = true := by
    simp [attempt]
  refine ⟨h, ?_⟩
  cases schedule with
  | nil => rfl
  | cons p rest =>
    obtain ⟨r, d⟩ := p
    simp [driver_loop, h]

/-- C4: when after an attempt the session is still Active and no forced quit
was recorded, `script_completed` is forced back to false, so a nonempty
schedule makes the loop run a further attempt. -/
theorem crash_under_debugger_retries (st : DriverState) (r : RunResult) (d : Bool)
    (hdeb : (attempt st r d).is_debugging = true)
    (hfq : (attempt st r d).script_force_quit = false) :
    (attempt st r d).script_completed = false ∧
    ∀ (r2 : RunResult) (d2 : Bool) (rest : List (RunResult × Bool)),
      driver_loop ((r2, d2) :: rest) (attempt st r d) =
        driver_loop rest (attempt (attempt st r d) r2 d2) := by
  have hc : (attempt st r d).script_completed = false := by
    cases r <;> cases d <;> cases hsf : st.script_force_quit <;>
      simp_all [attempt]
  exact ⟨hc, fun r2 d2 rest => by simp [driver_loop, hc]⟩

/-- C4 witness: from the initial driver state, a non-quit fault caught with
the debugger active leaves the loop re-opened. -/
theorem crash_under_debugger_retries_witness :
    (attempt ⟨false, false, false⟩ RunResult.raisesOther true).is_debugging = true ∧
    (attempt ⟨false, false, false⟩ RunResult.raisesOther true).script_force_quit = false ∧
    (attempt ⟨false, false, false⟩ RunResult.raisesOther true).script_completed = false :=
  ⟨by decide, by decide,
    (crash_under_debugger_retries ⟨false, false, false⟩ RunResult.raisesOther true
      (by decide) (by decide)).1⟩

end SimplestPal
